import Mathlib

set_option autoImplicit false

/-!
# Verification of the ipiis routing / signed-RPC core

A shallow embedding of the ipiis repository's routing stores, builtin-op
server handlers, and signed-framing result flags, together with proofs of
the specification claims about them.

Conventions of the embedding:

* Machine bytes are `Nat`; a `Hash` (the opaque *kind* digest) and an
  `AccountRef` (raw public-key bytes) are byte lists whose fixed widths
  (32 bytes in the sources) appear as hypotheses where they matter.
* The sled-backed key-value table is an insertion-ordered association
  list (newest entry first), which matches sled's last-write-wins
  single-key semantics; sled I/O errors are not modelled.
* The generic `Address` type parameter is taken at its `String`
  realization (`IpiisClient` in `src/api/quic/src/client.rs` uses
  `type Address = String`); the `SocketAddr` realization embeds as the
  canonical textual forms, for which `FromStr`/`ToString` round-trip.
* External collaborators from the `ipis` crate (DNS resolution via
  `to_socket_addrs`, `AccountRef::to_string`/`parse`, envelope signing
  and verification) enter as explicit function parameters or, where the
  sources only call them, as definitions modelled from the spec (each is
  marked `Modelled from the spec:` in its doc comment).
-/

namespace Ipiis

/-- One byte. -/
abbrev Byte := Nat

/-- A fixed-width content digest used as the opaque `kind` namespace tag
(`ipis::core::value::hash::Hash`), embedded as its raw byte list. -/
abbrev Hash := List Byte

/-- The public half of an account (`ipis::core::account::AccountRef`),
embedded as its raw public-key byte list. -/
abbrev AccountRef := List Byte

/-- A canonical routing-table key (`Vec<u8>` in the sources). -/
abbrev Key := List Byte

/-- The sled-backed table of a routing store, embedded as an
insertion-ordered association list: the most recent write for a key is
the first matching entry. -/
abbrev Table := List (Key × String)

/-- `sled::Db::get`: the newest value stored under `k`, if any. -/
def Table.find (t : Table) (k : Key) : Option String :=
  (List.find? (fun p => p.1 == k) t).map (fun p => p.2)

/-- `sled::Db::insert`: overwrite the value under `k` (the new pair
shadows any older entry for the same key). -/
def Table.insert (t : Table) (k : Key) (v : String) : Table :=
  (k, v) :: t

/-- `sled::Db::remove`: erase every entry under `k`; removing an absent
key is not an error. -/
def Table.remove (t : Table) (k : Key) : Table :=
  List.filter (fun p => p.1 != k) t

theorem Table.find_insert (t : Table) (k k' : Key) (v : String) :
    Table.find (Table.insert t k' v) k = if k = k' then some v else Table.find t k := by
  by_cases h : k = k'
  · subst h
    simp [Table.find, Table.insert]
  · have hne : (k' == k) = false := by
      simp only [beq_eq_false_iff_ne, ne_eq]
      exact fun hx => h hx.symm
    simp [Table.find, Table.insert, List.find?, hne, h]

theorem Table.find?_filter_self (t : Table) (k : Key) :
    List.find? (fun p => p.1 == k) (List.filter (fun p => p.1 != k) t) = none := by
  induction t with
  | nil => simp
  | cons p t ih =>
    by_cases hp : p.1 = k
    · have : (p.1 != k) = false := by simp [hp]
      rw [List.filter_cons, this]
      simp only [Bool.false_eq_true, if_false]
      exact ih
    · have hkeep : (p.1 != k) = true := by simp [hp]
      have hfind : (p.1 == k) = false := by simp [hp]
      rw [List.filter_cons, hkeep]
      simp only [if_true]
      rw [List.find?_cons_of_neg _ (by simp [hfind]), ih]

theorem Table.find?_filter_ne (t : Table) (k k' : Key) (h : k ≠ k') :
    List.find? (fun p => p.1 == k) (List.filter (fun p => p.1 != k') t) =
      List.find? (fun p => p.1 == k) t := by
  induction t with
  | nil => simp
  | cons p t ih =>
    by_cases hp : p.1 = k'
    · have hdrop : (p.1 != k') = false := by simp [hp]
      have hfind : (p.1 == k) = false := by
        simp only [beq_eq_false_iff_ne, ne_eq, hp]
        exact fun hx => h hx.symm
      rw [List.filter_cons, hdrop]
      simp only [if_false, Bool.false_eq_true]
      rw [List.find?_cons_of_neg _ (by simp [hfind]), ih]
    · have hkeep : (p.1 != k') = true := by simp [hp]
      rw [List.filter_cons, hkeep]
      simp only [if_true]
      by_cases hpk : p.1 = k
      · rw [List.find?_cons_of_pos _ (by simp [hpk]),
          List.find?_cons_of_pos _ (by simp [hpk])]
      · rw [List.find?_cons_of_neg _ (by simp [hpk]),
          List.find?_cons_of_neg _ (by simp [hpk]), ih]

theorem Table.find_remove (t : Table) (k k' : Key) :
    Table.find (Table.remove t k') k = if k = k' then none else Table.find t k := by
  by_cases h : k = k'
  · subst h
    simp [Table.find, Table.remove, Table.find?_filter_self]
  · simp [Table.find, Table.remove, Table.find?_filter_ne t k k' h, h]

/-- The canonical key encoding shared verbatim by `AddressBook` (both
copies) and `RouterClient`:
`flag = ((kind.is_some as u8) << 1) + ((account.is_some as u8) << 0)`,
then `[&[flag], kind_bytes, account_bytes].concat()` where the byte
parts are the raw digest / public-key bytes or empty. -/
def to_key_canonical (kind : Option Hash) (account : Option AccountRef) : Key :=
  let flag : Byte := (if kind.isSome then 1 else 0) * 2 + (if account.isSome then 1 else 0)
  let kindBytes : List Byte := kind.getD []
  let accountBytes : List Byte := account.getD []
  flag :: (kindBytes ++ accountBytes)

/-- Claim C9: the canonical key encoding
`[flag_byte] ++ kind_bytes ++ account_bytes` with
`flag_byte = (kind_present << 1) | account_present` is injective across
the four presence variants, given the fixed 32-byte widths of kind
digests and account public keys. -/
theorem C9_to_key_canonical_injective
    (kind kind' : Option Hash) (account account' : Option AccountRef)
    (hk : ∀ h, kind = some h → h.length = 32)
    (hk' : ∀ h, kind' = some h → h.length = 32)
    (ha : ∀ a, account = some a → a.length = 32)
    (ha' : ∀ a, account' = some a → a.length = 32)
    (heq : to_key_canonical kind account = to_key_canonical kind' account') :
    kind = kind' ∧ account = account' := by
  rcases kind with _ | h1 <;> rcases kind' with _ | h2 <;>
    rcases account with _ | a1 <;> rcases account' with _ | a2 <;>
    simp only [to_key_canonical, Option.isSome_none, Option.isSome_some,
      Option.getD_none, Option.getD_some, if_true, if_false,
      Bool.false_eq_true, List.cons.injEq, List.nil_append,
      List.append_nil] at heq
  all_goals
    first
    | exact ⟨rfl, rfl⟩
    | exact absurd heq.1 (by decide)
    | (have hlen : h1.length = h2.length := by rw [hk h1 rfl, hk' h2 rfl]
       have hsp := List.append_inj heq.2 hlen
       simp [hsp.1, hsp.2])
    | simp [heq.2]

/-- Witness for C9 at concrete 32-byte inputs. -/
theorem C9_to_key_canonical_injective_witness :
    some (List.replicate 32 (7 : Byte)) = some (List.replicate 32 (7 : Byte)) ∧
      some (List.replicate 32 (3 : Byte)) = some (List.replicate 32 (3 : Byte)) :=
  C9_to_key_canonical_injective
    (some (List.replicate 32 7)) (some (List.replicate 32 7))
    (some (List.replicate 32 3)) (some (List.replicate 32 3))
    (fun h hh => by cases hh; simp)
    (fun h hh => by cases hh; simp)
    (fun a ha => by cases ha; simp)
    (fun a ha => by cases ha; simp)
    rfl

/-!
## The routing stores

Three store variants exist in the sources, all over the same sled table
and the same canonical key encoding but with different `get`/`set`
bodies:

* `AddressBook` — `src/api/common/src/book.rs`;
* `RouterClient` — `src/modules/router/src/lib.rs` (the store the quic
  `IpiisClient` holds);
* `NativeAddressBook` — `src/api/quic/src/native/book.rs`.

The external DNS lookup `ToSocketAddrs::to_socket_addrs` is the
parameter `resolve : String → List String` (the list of textual socket
addresses a textual address resolves to; a resolution error and an
empty result coincide, both abort the write). `AccountRef::to_string`
and its `FromStr` parse from the external `ipis` crate are the
parameters `enc : AccountRef → String` and
`dec : String → Option AccountRef`. -/

/-- A routing store: the owner's account and the sled table.
(`AddressBook` also caches `account_ref`; `NativeAddressBook` derives
it from `account_me` — both are the public half `account_me`, which is
all the embedding needs.) -/
structure Book where
  account_me : AccountRef
  table : Table
deriving DecidableEq

namespace AddressBook

/-- `AddressBook::get` (`src/api/common/src/book.rs:32`): look the
canonical key up; a stored value is parsed and returned (the `String`
realization of `Address` parses to itself); on a miss, asking for the
owner's own address is the error `cannot get the address myself`,
any other miss is `None`. -/
def get (b : Book) (kind : Option Hash) (target : AccountRef) :
    Except String (Option String) :=
  match Table.find b.table (to_key_canonical kind (some target)) with
  | some address => .ok (some address)
  | none =>
    if b.account_me = target then .error "cannot get the address myself"
    else .ok none

/-- `AddressBook::get_primary` (`src/api/common/src/book.rs:51`): look
the account-less key up and parse the stored textual `AccountRef`. -/
def get_primary (dec : String → Option AccountRef) (b : Book) (kind : Option Hash) :
    Except String (Option AccountRef) :=
  match Table.find b.table (to_key_canonical kind none) with
  | some s =>
    match dec s with
    | some account => .ok (some account)
    | none => .error "failed to parse the account"
  | none => .ok none

/-- `AddressBook::set` (`src/api/common/src/book.rs:60`): the address
must resolve to exactly one socket address, otherwise the write fails
with a parse error; on success the textual address itself is stored. -/
def set (resolve : String → List String) (b : Book) (kind : Option Hash)
    (target : AccountRef) (address : String) : Except String Book :=
  if (resolve address).length ≠ 1 then
    .error "failed to parse the socket address"
  else
    .ok { b with table := Table.insert b.table (to_key_canonical kind (some target)) address }

/-- `AddressBook::set_primary` (`src/api/common/src/book.rs:82`): store
the textual form of the account under the account-less key. -/
def set_primary (enc : AccountRef → String) (b : Book) (kind : Option Hash)
    (account : AccountRef) : Book :=
  { b with table := Table.insert b.table (to_key_canonical kind none) (enc account) }

/-- Modelled from the spec: `delete(kind?, account)` erases the entry;
non-existence is not an error. The delete operations are invoked by
the clients (`self.router.delete`) but their store-side definitions are
not among the sources. -/
def delete (b : Book) (kind : Option Hash) (target : AccountRef) : Book :=
  { b with table := Table.remove b.table (to_key_canonical kind (some target)) }

/-- Modelled from the spec: `delete_primary(kind?)` erases the primary
designator; non-existence is not an error. -/
def delete_primary (b : Book) (kind : Option Hash) : Book :=
  { b with table := Table.remove b.table (to_key_canonical kind none) }

end AddressBook

namespace RouterClient

/-- `RouterClient::get` (`src/modules/router/src/lib.rs:39`): look the
canonical key up; a stored value is parsed and returned, a miss is
`None`. Unlike `AddressBook::get` there is no self-lookup check. -/
def get (b : Book) (kind : Option Hash) (target : AccountRef) :
    Except String (Option String) :=
  .ok (Table.find b.table (to_key_canonical kind (some target)))

/-- `RouterClient::get_primary` (`src/modules/router/src/lib.rs:52`). -/
def get_primary (dec : String → Option AccountRef) (b : Book) (kind : Option Hash) :
    Except String (Option AccountRef) :=
  match Table.find b.table (to_key_canonical kind none) with
  | some s =>
    match dec s with
    | some account => .ok (some account)
    | none => .error "failed to parse the account"
  | none => .ok none

/-- `RouterClient::set` (`src/modules/router/src/lib.rs:61`): resolve
the address and store the textual form of the *first* resolved socket
address (`to_socket_addrs()...next()`); only an address resolving to
nothing fails. -/
def set (resolve : String → List String) (b : Book) (kind : Option Hash)
    (target : AccountRef) (address : String) : Except String Book :=
  match (resolve address).head? with
  | some resolved =>
    .ok { b with table := Table.insert b.table (to_key_canonical kind (some target)) resolved }
  | none => .error "failed to parse the socket address"

/-- `RouterClient::set_primary` (`src/modules/router/src/lib.rs:83`). -/
def set_primary (enc : AccountRef → String) (b : Book) (kind : Option Hash)
    (account : AccountRef) : Book :=
  { b with table := Table.insert b.table (to_key_canonical kind none) (enc account) }

/-- Modelled from the spec: `delete(kind?, account)` erases the entry;
non-existence is not an error (the quic client calls
`self.router.delete`, whose store-side definition is not among the
sources). -/
def delete (b : Book) (kind : Option Hash) (target : AccountRef) : Book :=
  { b with table := Table.remove b.table (to_key_canonical kind (some target)) }

/-- Modelled from the spec: `delete_primary(kind?)` erases the primary
designator; non-existence is not an error. -/
def delete_primary (b : Book) (kind : Option Hash) : Book :=
  { b with table := Table.remove b.table (to_key_canonical kind none) }

end RouterClient

namespace NativeAddressBook

/-- `AddressBook::get` of the quic native variant
(`src/api/quic/src/native/book.rs:30`): identical to the api/common
`AddressBook::get`, including the self-lookup error on a miss. -/
def get (b : Book) (kind : Option Hash) (target : AccountRef) :
    Except String (Option String) :=
  match Table.find b.table (to_key_canonical kind (some target)) with
  | some address => .ok (some address)
  | none =>
    if b.account_me = target then .error "cannot get the address myself"
    else .ok none

/-- `AddressBook::get_primary` of the quic native variant
(`src/api/quic/src/native/book.rs:49`). -/
def get_primary (dec : String → Option AccountRef) (b : Book) (kind : Option Hash) :
    Except String (Option AccountRef) :=
  match Table.find b.table (to_key_canonical kind none) with
  | some s =>
    match dec s with
    | some account => .ok (some account)
    | none => .error "failed to parse the account"
  | none => .ok none

/-- `AddressBook::set` of the quic native variant
(`src/api/quic/src/native/book.rs:58`): no address validation at all —
the only bound on `Address` is `ToString`, and the textual form is
stored unconditionally. -/
def set (b : Book) (kind : Option Hash) (target : AccountRef) (address : String) : Book :=
  { b with table := Table.insert b.table (to_key_canonical kind (some target)) address }

/-- `AddressBook::set_primary` of the quic native variant
(`src/api/quic/src/native/book.rs:70`). -/
def set_primary (enc : AccountRef → String) (b : Book) (kind : Option Hash)
    (account : AccountRef) : Book :=
  { b with table := Table.insert b.table (to_key_canonical kind none) (enc account) }

end NativeAddressBook

/-!
## Claim C1 — set-then-get

To state persistence "until a delete or a replacing set", store
operations are reified as `BookOp`s, applied in sequence; an op's
canonical key identifies the single entry it touches, and a failing
validated set leaves the table untouched (the error aborts before the
insert). -/

/-- One mutating store operation of a claim's interference sequence. -/
inductive BookOp where
  | setAddr (kind : Option Hash) (target : AccountRef) (address : String)
  | setPrim (kind : Option Hash) (account : AccountRef)
  | delAddr (kind : Option Hash) (target : AccountRef)
  | delPrim (kind : Option Hash)
deriving DecidableEq

/-- The canonical key a `BookOp` touches. -/
def BookOp.key : BookOp → Key
  | .setAddr kind target _ => to_key_canonical kind (some target)
  | .setPrim kind _ => to_key_canonical kind none
  | .delAddr kind target => to_key_canonical kind (some target)
  | .delPrim kind => to_key_canonical kind none

/-- Apply one operation with `AddressBook` semantics; a set whose
validation fails leaves the store as it was. -/
def AddressBook.apply (resolve : String → List String) (enc : AccountRef → String)
    (b : Book) : BookOp → Book
  | .setAddr kind target address =>
    match AddressBook.set resolve b kind target address with
    | .ok b' => b'
    | .error _ => b
  | .setPrim kind account => AddressBook.set_primary enc b kind account
  | .delAddr kind target => AddressBook.delete b kind target
  | .delPrim kind => AddressBook.delete_primary b kind

/-- Apply one operation with `RouterClient` semantics. -/
def RouterClient.apply (resolve : String → List String) (enc : AccountRef → String)
    (b : Book) : BookOp → Book
  | .setAddr kind target address =>
    match RouterClient.set resolve b kind target address with
    | .ok b' => b'
    | .error _ => b
  | .setPrim kind account => RouterClient.set_primary enc b kind account
  | .delAddr kind target => RouterClient.delete b kind target
  | .delPrim kind => RouterClient.delete_primary b kind

theorem AddressBook.apply_preserves (resolve : String → List String)
    (enc : AccountRef → String) (b : Book) (op : BookOp) (k : Key)
    (h : BookOp.key op ≠ k) :
    Table.find (AddressBook.apply resolve enc b op).table k = Table.find b.table k := by
  have hne : k ≠ BookOp.key op := fun hx => h hx.symm
  cases op with
  | setAddr kind target address =>
    simp only [AddressBook.apply]
    rcases hset : AddressBook.set resolve b kind target address with b' | b'
    · rfl
    · simp only [AddressBook.set] at hset
      split at hset
      · exact absurd hset (by simp)
      · cases hset
        simp only [BookOp.key] at hne
        simp [Table.find_insert, hne]
  | setPrim kind account =>
    simp only [BookOp.key] at hne
    simp [AddressBook.apply, AddressBook.set_primary, Table.find_insert, hne]
  | delAddr kind target =>
    simp only [BookOp.key] at hne
    simp [AddressBook.apply, AddressBook.delete, Table.find_remove, hne]
  | delPrim kind =>
    simp only [BookOp.key] at hne
    simp [AddressBook.apply, AddressBook.delete_primary, Table.find_remove, hne]

theorem RouterClient.apply_preserves_router (resolve : String → List String)
    (enc : AccountRef → String) (b : Book) (op : BookOp) (k : Key)
    (h : BookOp.key op ≠ k) :
    Table.find (RouterClient.apply resolve enc b op).table k = Table.find b.table k := by
  have hne : k ≠ BookOp.key op := fun hx => h hx.symm
  cases op with
  | setAddr kind target address =>
    simp only [RouterClient.apply]
    rcases hset : RouterClient.set resolve b kind target address with b' | b'
    · rfl
    · simp only [RouterClient.set] at hset
      split at hset
      · cases hset
        simp only [BookOp.key] at hne
        simp [Table.find_insert, hne]
      · exact absurd hset (by simp)
  | setPrim kind account =>
    simp only [BookOp.key] at hne
    simp [RouterClient.apply, RouterClient.set_primary, Table.find_insert, hne]
  | delAddr kind target =>
    simp only [BookOp.key] at hne
    simp [RouterClient.apply, RouterClient.delete, Table.find_remove, hne]
  | delPrim kind =>
    simp only [BookOp.key] at hne
    simp [RouterClient.apply, RouterClient.delete_primary, Table.find_remove, hne]

theorem AddressBook.foldl_preserves (resolve : String → List String)
    (enc : AccountRef → String) (b : Book) (ops : List BookOp) (k : Key)
    (h : ∀ op ∈ ops, BookOp.key op ≠ k) :
    Table.find ((ops.foldl (AddressBook.apply resolve enc) b)).table k =
      Table.find b.table k := by
  induction ops generalizing b with
  | nil => rfl
  | cons op ops ih =>
    simp only [List.foldl_cons]
    rw [ih _ (fun o ho => h o (List.mem_cons_of_mem _ ho)),
      AddressBook.apply_preserves resolve enc b op k (h op (List.mem_cons_self _ _))]

theorem RouterClient.foldl_preserves_router (resolve : String → List String)
    (enc : AccountRef → String) (b : Book) (ops : List BookOp) (k : Key)
    (h : ∀ op ∈ ops, BookOp.key op ≠ k) :
    Table.find ((ops.foldl (RouterClient.apply resolve enc) b)).table k =
      Table.find b.table k := by
  induction ops generalizing b with
  | nil => rfl
  | cons op ops ih =>
    simp only [List.foldl_cons]
    rw [ih _ (fun o ho => h o (List.mem_cons_of_mem _ ho)),
      RouterClient.apply_preserves_router resolve enc b op k (h op (List.mem_cons_self _ _))]

/-- An example resolver: the DNS behaviour in which the host name
`localhost:8080` resolves to the single socket address
`127.0.0.1:8080` and nothing else resolves. -/
def resolveEx : String → List String :=
  fun s => if s = "localhost:8080" then ["127.0.0.1:8080"] else []

/-- An example account (head byte of a public key suffices to tell the
stores' behaviours apart). -/
def accEx : AccountRef := [1]

/-- An example store owned by account `[0]` with an empty table. -/
def bookEx : Book := { account_me := [0], table := [] }

/-- A concrete account encoding for witnesses: every account prints as
`P` and `P` parses back to the account `[2]`. -/
def encP : AccountRef → String := fun _ => "P"

/-- The concrete partial inverse of `encP` at the account `[2]`. -/
def decP : String → Option AccountRef := fun s => if s = "P" then some [2] else none

/-- Counterexample to claim C1 as stated: `RouterClient::set` stores
the textual form of the first socket address the given address
resolves to, so after `set(None, accEx, "localhost:8080")` the next
`get(None, accEx)` returns `127.0.0.1:8080`, not the address that was
set. -/
theorem C1_counterexample :
    RouterClient.set resolveEx bookEx none accEx "localhost:8080" =
      .ok { account_me := [0],
            table := [(to_key_canonical none (some accEx), "127.0.0.1:8080")] } ∧
    RouterClient.get
        { account_me := [0],
          table := [(to_key_canonical none (some accEx), "127.0.0.1:8080")] }
        none accEx = .ok (some "127.0.0.1:8080") ∧
    "127.0.0.1:8080" ≠ "localhost:8080" := by
  refine ⟨rfl, rfl, by decide⟩

/-- Claim C1 (amended): after a successful
`AddressBook::set(kind, account, address)` the next `get(kind,
account)` returns exactly `address`, and keeps doing so across any
sequence of further store operations whose canonical key differs from
this entry's (i.e. until a `delete(kind, account)` or a replacing
`set`); for `RouterClient` the same persistence holds, but what `get`
returns is the textual form of the first socket address that `address`
resolved to at `set` time (equal to `address` itself only when the
address's text coincides with its first resolution). -/
theorem C1_set_then_get (resolve : String → List String) (enc : AccountRef → String)
    (b : Book) (kind : Option Hash) (target : AccountRef) (address : String)
    (ops : List BookOp)
    (hops : ∀ op ∈ ops, BookOp.key op ≠ to_key_canonical kind (some target)) :
    (∀ b₁, AddressBook.set resolve b kind target address = .ok b₁ →
      AddressBook.get (ops.foldl (AddressBook.apply resolve enc) b₁) kind target =
        .ok (some address)) ∧
    (∀ b₂, RouterClient.set resolve b kind target address = .ok b₂ →
      RouterClient.get (ops.foldl (RouterClient.apply resolve enc) b₂) kind target =
        .ok ((resolve address).head?)) := by
  constructor
  · intro b₁ hset
    simp only [AddressBook.set] at hset
    split at hset
    · exact absurd hset (by simp)
    · cases hset
      have hfind := AddressBook.foldl_preserves resolve enc
        { b with table := Table.insert b.table (to_key_canonical kind (some target)) address }
        ops (to_key_canonical kind (some target)) hops
      simp only [Table.find_insert, if_pos rfl] at hfind
      simp [AddressBook.get, hfind]
  · intro b₂ hset
    simp only [RouterClient.set] at hset
    rcases hhead : (resolve address).head? with _ | resolved
    · rw [hhead] at hset
      exact absurd hset (by simp)
    · rw [hhead] at hset
      cases hset
      have hfind := RouterClient.foldl_preserves_router resolve enc
        { b with table := Table.insert b.table (to_key_canonical kind (some target)) resolved }
        ops (to_key_canonical kind (some target)) hops
      simp only [Table.find_insert, if_pos rfl] at hfind
      simp [RouterClient.get, hfind]

/-- Witness for C1 (amended) at concrete inputs: the empty interference
sequence, the example resolver and a constant account encoding, with
both store writes fully evaluated. -/
theorem C1_set_then_get_witness :
    AddressBook.get
      (List.foldl (AddressBook.apply resolveEx encP)
        { bookEx with table :=
          (Table.insert bookEx.table (to_key_canonical none (some accEx)) "localhost:8080") } [])
      none accEx = .ok (some "localhost:8080") ∧
    RouterClient.get
      (List.foldl (RouterClient.apply resolveEx encP)
        { bookEx with table :=
          (Table.insert bookEx.table (to_key_canonical none (some accEx)) "127.0.0.1:8080") } [])
      none accEx = .ok ((resolveEx "localhost:8080").head?) :=
  ⟨(C1_set_then_get resolveEx encP bookEx none accEx "localhost:8080" []
      (fun op hop => absurd hop (List.not_mem_nil op))).1 _ rfl,
   (C1_set_then_get resolveEx encP bookEx none accEx "localhost:8080" []
      (fun op hop => absurd hop (List.not_mem_nil op))).2 _ rfl⟩

/-- Counterexample to claim C7 as stated: the `RouterClient` store
variant performs no self-lookup check at all — with an empty table,
`get` on the owner's own account returns `Ok(None)` instead of the
`cannot get .. myself` error. -/
theorem C7_counterexample :
    RouterClient.get bookEx none ([0] : AccountRef) = .ok none ∧
    bookEx.account_me = ([0] : AccountRef) := by
  refine ⟨rfl, rfl⟩

/-- Claim C7 (amended): in the two `AddressBook` variants, `get(kind,
self)` fails with `cannot get the address myself` exactly when no
entry is stored under that key — a stored entry for the owner's own
key is returned normally; the `RouterClient` variant has no self check
and simply returns the stored entry or none. -/
theorem C7_self_lookup (b : Book) (kind : Option Hash) :
    (Table.find b.table (to_key_canonical kind (some b.account_me)) = none →
      AddressBook.get b kind b.account_me = .error "cannot get the address myself" ∧
      NativeAddressBook.get b kind b.account_me = .error "cannot get the address myself") ∧
    (∀ v, Table.find b.table (to_key_canonical kind (some b.account_me)) = some v →
      AddressBook.get b kind b.account_me = .ok (some v) ∧
      NativeAddressBook.get b kind b.account_me = .ok (some v)) ∧
    RouterClient.get b kind b.account_me =
      .ok (Table.find b.table (to_key_canonical kind (some b.account_me))) := by
  refine ⟨fun hnone => ?_, fun v hsome => ?_, rfl⟩
  · constructor
    · simp [AddressBook.get, hnone]
    · simp [NativeAddressBook.get, hnone]
  · constructor
    · simp [AddressBook.get, hsome]
    · simp [NativeAddressBook.get, hsome]

/-- Witness for C7 (amended) at a concrete input: the empty store. -/
theorem C7_self_lookup_witness :
    AddressBook.get bookEx none bookEx.account_me =
      .error "cannot get the address myself" ∧
    NativeAddressBook.get bookEx none bookEx.account_me =
      .error "cannot get the address myself" :=
  (C7_self_lookup bookEx none).1 rfl

/-- A resolver under which the name `multi.example:1` is ambiguous: it
resolves to two distinct socket addresses. -/
def resolveMulti : String → List String :=
  fun s => if s = "multi.example:1" then ["10.0.0.1:1", "10.0.0.2:1"] else []

/-- Counterexample to claim C8 as stated: two of the three store
variants do not validate that the address resolves to exactly one
socket address — `RouterClient::set` accepts an ambiguous two-address
name (and silently stores the first resolution), and the quic native
`AddressBook::set` accepts even an unresolvable address. -/
theorem C8_counterexample :
    RouterClient.set resolveMulti bookEx none accEx "multi.example:1" =
      .ok { account_me := [0], table := [([1, 1], "10.0.0.1:1")] } ∧
    resolveMulti "multi.example:1" = ["10.0.0.1:1", "10.0.0.2:1"] ∧
    NativeAddressBook.set bookEx none accEx "unresolvable" =
      { account_me := [0], table := [([1, 1], "unresolvable")] } ∧
    resolveMulti "unresolvable" = [] := by
  refine ⟨rfl, rfl, rfl, rfl⟩

/-- Claim C8 (amended): only the api/common `AddressBook::set`
validates that the address resolves to exactly one socket address,
failing with a parse error otherwise and writing only on success;
`RouterClient::set` merely requires at least one resolution (storing
the first, so ambiguous multi-address names are accepted); the quic
native `AddressBook::set` performs no validation and always writes. -/
theorem C8_set_validation (resolve : String → List String) (b : Book)
    (kind : Option Hash) (target : AccountRef) (address : String) :
    ((resolve address).length = 1 →
      AddressBook.set resolve b kind target address =
        .ok { b with table :=
                (Table.insert b.table (to_key_canonical kind (some target)) address) }) ∧
    ((resolve address).length ≠ 1 →
      AddressBook.set resolve b kind target address =
        .error "failed to parse the socket address") ∧
    (∀ r, (resolve address).head? = some r →
      RouterClient.set resolve b kind target address =
        .ok { b with table :=
                (Table.insert b.table (to_key_canonical kind (some target)) r) }) ∧
    ((resolve address) = [] →
      RouterClient.set resolve b kind target address =
        .error "failed to parse the socket address") ∧
    NativeAddressBook.set b kind target address =
      { b with table :=
          (Table.insert b.table (to_key_canonical kind (some target)) address) } := by
  refine ⟨fun h1 => ?_, fun hne => ?_, fun r hr => ?_, fun hnil => ?_, rfl⟩
  · simp [AddressBook.set, h1]
  · simp [AddressBook.set, hne]
  · simp [RouterClient.set, hr]
  · simp [RouterClient.set, hnil]

/-- Witness for C8 (amended) at concrete inputs. -/
theorem C8_set_validation_witness :
    AddressBook.set resolveMulti bookEx none accEx "multi.example:1" =
      .error "failed to parse the socket address" ∧
    RouterClient.set resolveMulti bookEx none accEx "multi.example:1" =
      .ok { bookEx with table :=
              (Table.insert bookEx.table (to_key_canonical none (some accEx)) "10.0.0.1:1") } :=
  ⟨(C8_set_validation resolveMulti bookEx none accEx "multi.example:1").2.1 (by decide),
   (C8_set_validation resolveMulti bookEx none accEx "multi.example:1").2.2.1
     "10.0.0.1:1" (by decide)⟩

/-!
## The quic clients

`IpiisClient` of `src/api/quic/src/client.rs` holds a `RouterClient`;
the native `IpiisClient` of `src/api/quic/src/native/client.rs` holds a
`NativeAddressBook`. Their `get_account_primary` / `get_address`
resolution logic is identical up to the store variant. The signed
remote call made through `external_call!` enters the embedding as an
oracle `remote` giving the reply of the root primary (the signing and
framing of that call are the subject of the framing section); the
reply of `GetAccountPrimary` carries an account and an optional
address. -/

/-- The payload of a successful remote `GetAccountPrimary` reply:
`outputs: { account, address }`. -/
structure PrimaryReply where
  account : AccountRef
  address : Option String
deriving DecidableEq

namespace IpiisClient

/-- `IpiisClient::get_account_primary`
(`src/api/quic/src/client.rs:112`): return the locally stored primary
for `kind` when present; otherwise, for a non-null `kind`, resolve the
root primary by the recursive call at `kind = None`, ask it remotely,
store the replied primary (and, when present, its address) and return
the replied account; for a null `kind` with no local primary, fail.
The recursion instantiates `kind := none` only, hence terminates. -/
def get_account_primary (enc : AccountRef → String) (dec : String → Option AccountRef)
    (resolve : String → List String)
    (remote : AccountRef → Hash → Except String PrimaryReply)
    (b : Book) : (kind : Option Hash) → Except String (AccountRef × Book)
  | none =>
    match RouterClient.get_primary dec b none with
    | .error e => .error e
    | .ok (some account) => .ok (account, b)
    | .ok none => .error "failed to get primary address"
  | some k =>
    match RouterClient.get_primary dec b (some k) with
    | .error e => .error e
    | .ok (some account) => .ok (account, b)
    | .ok none =>
      match get_account_primary enc dec resolve remote b none with
      | .error e => .error e
      | .ok (primary, _) =>
        match remote primary k with
        | .error e => .error e
        | .ok reply =>
          let b₁ := RouterClient.set_primary enc b (some k) reply.account
          match reply.address with
          | some address =>
            match RouterClient.set resolve b₁ (some k) reply.account address with
            | .ok b₂ => .ok (reply.account, b₂)
            | .error e => .error e
          | none => .ok (reply.account, b₁)
termination_by kind => match kind with | none => 0 | some _ => 1

/-- `IpiisClient::get_address` (`src/api/quic/src/client.rs:182`):
return the locally stored address when present; otherwise ask the root
primary (`get_primary(None)`) remotely via `GetAddress`, cache the
reply, and return it; with no root primary, fail. The remote
`GetAddress` call is the oracle `remoteAddr`. -/
def get_address (dec : String → Option AccountRef) (resolve : String → List String)
    (remoteAddr : AccountRef → Option Hash × AccountRef → Except String String)
    (b : Book) (kind : Option Hash) (target : AccountRef) :
    Except String (String × Book) :=
  match RouterClient.get b kind target with
  | .error e => .error e
  | .ok (some address) => .ok (address, b)
  | .ok none =>
    match RouterClient.get_primary dec b none with
    | .error e => .error e
    | .ok (some primary) =>
      match remoteAddr primary (kind, target) with
      | .error e => .error e
      | .ok address =>
        match RouterClient.set resolve b kind target address with
        | .ok b' => .ok (address, b')
        | .error e => .error e
    | .ok none => .error "failed to get address"

/-- `IpiisClient::new` (`src/api/quic/src/client.rs:49`), restricted to
its routing-table effect: starting from the store `b₀` opened at the
persistent router path, a `Some(account_primary)` argument first
writes the primary designator and then, when the
`ipiis_account_primary_address` environment value is readable
(`envAddress`), writes its address; a `None` argument writes nothing. -/
def new (enc : AccountRef → String) (resolve : String → List String) (b₀ : Book)
    (account_primary : Option AccountRef) (envAddress : Option String) :
    Except String Book :=
  match account_primary with
  | none => .ok b₀
  | some p =>
    let b₁ := RouterClient.set_primary enc b₀ none p
    match envAddress with
    | some address => RouterClient.set resolve b₁ none p address
    | none => .ok b₁

end IpiisClient

namespace NativeIpiisClient

/-- The native `IpiisClient::get_account_primary`
(`src/api/quic/src/native/client.rs:111`): same resolution logic as
the quic client, over the native book whose `set` never validates. -/
def get_account_primary (enc : AccountRef → String) (dec : String → Option AccountRef)
    (remote : AccountRef → Hash → Except String PrimaryReply)
    (b : Book) : (kind : Option Hash) → Except String (AccountRef × Book)
  | none =>
    match NativeAddressBook.get_primary dec b none with
    | .error e => .error e
    | .ok (some account) => .ok (account, b)
    | .ok none => .error "failed to get primary address"
  | some k =>
    match NativeAddressBook.get_primary dec b (some k) with
    | .error e => .error e
    | .ok (some account) => .ok (account, b)
    | .ok none =>
      match get_account_primary enc dec remote b none with
      | .error e => .error e
      | .ok (primary, _) =>
        match remote primary k with
        | .error e => .error e
        | .ok reply =>
          let b₁ := NativeAddressBook.set_primary enc b (some k) reply.account
          match reply.address with
          | some address => .ok (reply.account, NativeAddressBook.set b₁ (some k) reply.account address)
          | none => .ok (reply.account, b₁)
termination_by kind => match kind with | none => 0 | some _ => 1

/-- The native `IpiisClient::with_address_db_path`
(`src/api/quic/src/native/client.rs:74`), restricted to its
routing-table effect: the book opens at a fresh temporary directory
(empty table); a `Some(account_primary)` argument writes the primary
designator and then, when readable, the
`ipiis_account_primary_address` value; a `None` argument writes
nothing. -/
def with_address_db_path (enc : AccountRef → String) (account_me : AccountRef)
    (account_primary : Option AccountRef) (envAddress : Option String) : Book :=
  let b₀ : Book := { account_me := account_me, table := [] }
  match account_primary with
  | none => b₀
  | some p =>
    let b₁ := NativeAddressBook.set_primary enc b₀ none p
    match envAddress with
    | some address => NativeAddressBook.set b₁ none p address
    | none => b₁

end NativeIpiisClient

/-- The canonical key of an address entry (account present) never
collides with the canonical key of a primary entry (account absent):
the flag byte differs in its low bit. -/
theorem to_key_canonical_some_ne_none (kind kind' : Option Hash) (a : AccountRef) :
    to_key_canonical kind (some a) ≠ to_key_canonical kind' none := by
  rcases kind with _ | k1 <;> rcases kind' with _ | k2 <;>
    simp only [to_key_canonical, Option.isSome_some, Option.isSome_none,
      Option.getD_some, Option.getD_none, List.cons.injEq] <;>
    intro h <;> revert h <;> simp

/-- Claim C4: `get_account_primary(kind)` returns the locally stored
primary when one exists; with no local entry and a non-null `kind` it
resolves the root primary locally (`get_primary(None)`), makes the
signed `GetAccountPrimary` call to it (the oracle `remote`), caches
the replied account — and its address when present — in the local
table and returns the account; with a null `kind` and no local primary
it fails without consulting `remote` at all (the error is the same for
every oracle). Both client variants. -/
theorem C4_get_account_primary (enc : AccountRef → String)
    (dec : String → Option AccountRef) (resolve : String → List String)
    (remote : AccountRef → Hash → Except String PrimaryReply) (b : Book) :
    (∀ kind account, RouterClient.get_primary dec b kind = .ok (some account) →
      IpiisClient.get_account_primary enc dec resolve remote b kind = .ok (account, b)) ∧
    (RouterClient.get_primary dec b none = .ok none →
      ∀ remoteAny : AccountRef → Hash → Except String PrimaryReply,
        IpiisClient.get_account_primary enc dec resolve remoteAny b none =
          .error "failed to get primary address") ∧
    (∀ k p reply, RouterClient.get_primary dec b (some k) = .ok none →
      RouterClient.get_primary dec b none = .ok (some p) →
      remote p k = .ok reply →
      IpiisClient.get_account_primary enc dec resolve remote b (some k) =
        (let b₁ := RouterClient.set_primary enc b (some k) reply.account
         match reply.address with
         | some address =>
           match RouterClient.set resolve b₁ (some k) reply.account address with
           | .ok b₂ => .ok (reply.account, b₂)
           | .error e => .error e
         | none => .ok (reply.account, b₁))) ∧
    (∀ kind account, NativeAddressBook.get_primary dec b kind = .ok (some account) →
      NativeIpiisClient.get_account_primary enc dec remote b kind = .ok (account, b)) ∧
    (NativeAddressBook.get_primary dec b none = .ok none →
      ∀ remoteAny : AccountRef → Hash → Except String PrimaryReply,
        NativeIpiisClient.get_account_primary enc dec remoteAny b none =
          .error "failed to get primary address") ∧
    (∀ k p reply, NativeAddressBook.get_primary dec b (some k) = .ok none →
      NativeAddressBook.get_primary dec b none = .ok (some p) →
      remote p k = .ok reply →
      NativeIpiisClient.get_account_primary enc dec remote b (some k) =
        (let b₁ := NativeAddressBook.set_primary enc b (some k) reply.account
         match reply.address with
         | some address =>
           .ok (reply.account, NativeAddressBook.set b₁ (some k) reply.account address)
         | none => .ok (reply.account, b₁))) := by
  refine ⟨fun kind account h => ?_, fun h remoteAny => ?_, fun k p reply h1 h2 h3 => ?_,
    fun kind account h => ?_, fun h remoteAny => ?_, fun k p reply h1 h2 h3 => ?_⟩
  · cases kind with
    | none => simp [IpiisClient.get_account_primary, h]
    | some k => simp [IpiisClient.get_account_primary, h]
  · simp [IpiisClient.get_account_primary, h]
  · simp [IpiisClient.get_account_primary, h1, h2, h3]
  · cases kind with
    | none => simp [NativeIpiisClient.get_account_primary, h]
    | some k => simp [NativeIpiisClient.get_account_primary, h]
  · simp [NativeIpiisClient.get_account_primary, h]
  · simp [NativeIpiisClient.get_account_primary, h1, h2, h3]

/-- A store whose only entry designates `[2]` as the unkinded (root)
primary. -/
def bookP : Book := { account_me := [0], table := [([0], "P")] }

/-- A remote oracle whose `GetAccountPrimary` reply names the account
`[3]` with address `localhost:8080`. -/
def remoteEx : AccountRef → Hash → Except String PrimaryReply :=
  fun _ _ => .ok { account := [3], address := some "localhost:8080" }

/-- Witness for C4 at concrete inputs: a local hit at the root key, the
null-kind failure on the empty store, and the remote path for kind
`[9]` through primary `[2]`. -/
theorem C4_get_account_primary_witness :
    IpiisClient.get_account_primary encP decP resolveEx remoteEx bookP none =
      .ok ([2], bookP) ∧
    IpiisClient.get_account_primary encP decP resolveEx remoteEx bookEx none =
      .error "failed to get primary address" ∧
    IpiisClient.get_account_primary encP decP resolveEx remoteEx bookP (some [9]) =
      (let b₁ := RouterClient.set_primary encP bookP (some [9]) [3]
       match RouterClient.set resolveEx b₁ (some [9]) [3] "localhost:8080" with
       | .ok b₂ => .ok (([3] : AccountRef), b₂)
       | .error e => .error e) :=
  ⟨(C4_get_account_primary encP decP resolveEx remoteEx bookP).1 none [2] rfl,
   (C4_get_account_primary encP decP resolveEx remoteEx bookEx).2.1 rfl remoteEx,
   (C4_get_account_primary encP decP resolveEx remoteEx bookP).2.2.1 [9] [2]
     { account := [3], address := some "localhost:8080" } rfl rfl rfl⟩

/-- Counterexample to claim C10 as stated: constructing the quic
`IpiisClient` with primary `accEx` while the environment address is
`localhost:8080` stores — and `get(None, accEx)` afterwards returns —
the resolved form `127.0.0.1:8080`, not the environment value. -/
theorem C10_counterexample :
    IpiisClient.new encP resolveEx bookEx (some accEx) (some "localhost:8080") =
      .ok { account_me := [0],
            table := [([1, 1], "127.0.0.1:8080"), ([0], "P")] } ∧
    RouterClient.get
        { account_me := [0], table := [([1, 1], "127.0.0.1:8080"), ([0], "P")] }
        none accEx = .ok (some "127.0.0.1:8080") ∧
    some "127.0.0.1:8080" ≠ some "localhost:8080" := by
  refine ⟨rfl, rfl, by decide⟩

/-- Claim C10 (amended): for a client constructed with
`Some(account_primary)`, `get_primary(None)` immediately afterwards
returns that account; when the `ipiis_account_primary_address`
environment value is present and accepted, `get(None,
account_primary)` returns the entry the respective `set` wrote — the
environment value itself for the native variant, its first resolved
socket address for the quic (router) variant; with a `None` argument
neither constructor writes any routing entry. -/
theorem C10_constructor (enc : AccountRef → String) (dec : String → Option AccountRef)
    (resolve : String → List String) (b₀ : Book) (p : AccountRef)
    (envAddress : Option String) (hdec : dec (enc p) = some p) :
    (∀ b, IpiisClient.new enc resolve b₀ (some p) envAddress = .ok b →
      RouterClient.get_primary dec b none = .ok (some p) ∧
      (∀ address r, envAddress = some address → (resolve address).head? = some r →
        RouterClient.get b none p = .ok (some r))) ∧
    IpiisClient.new enc resolve b₀ none envAddress = .ok b₀ ∧
    (∀ me,
      NativeAddressBook.get_primary dec
        (NativeIpiisClient.with_address_db_path enc me (some p) envAddress) none =
        .ok (some p) ∧
      (∀ address, envAddress = some address →
        NativeAddressBook.get
          (NativeIpiisClient.with_address_db_path enc me (some p) envAddress) none p =
          .ok (some address))) ∧
    (∀ me, NativeIpiisClient.with_address_db_path enc me none envAddress =
      { account_me := me, table := [] }) := by
  have hprimne : to_key_canonical none none ≠ to_key_canonical none (some p) :=
    (to_key_canonical_some_ne_none none none p).symm
  refine ⟨fun b hb => ?_, rfl, fun me => ⟨?_, fun address haddr => ?_⟩, fun me => rfl⟩
  · cases envAddress with
    | none =>
      simp only [IpiisClient.new] at hb
      cases hb
      constructor
      · simp [RouterClient.get_primary, RouterClient.set_primary,
          Table.find_insert, hdec]
      · intro address r haddr
        cases haddr
    | some address =>
      simp only [IpiisClient.new, RouterClient.set] at hb
      rcases hhead : (resolve address).head? with _ | resolved
      · rw [hhead] at hb
        cases hb
      · rw [hhead] at hb
        cases hb
        constructor
        · simp [RouterClient.get_primary, RouterClient.set_primary,
            Table.find_insert, hprimne, hdec]
        · intro address' r haddr hr
          cases haddr
          rw [hhead] at hr
          cases hr
          simp [RouterClient.get, Table.find_insert]
  · cases envAddress with
    | none =>
      simp [NativeIpiisClient.with_address_db_path, NativeAddressBook.get_primary,
        NativeAddressBook.set_primary, Table.find_insert, hdec]
    | some address =>
      simp [NativeIpiisClient.with_address_db_path, NativeAddressBook.get_primary,
        NativeAddressBook.set, NativeAddressBook.set_primary,
        Table.find_insert, hprimne, hdec]
  · cases haddr
    simp [NativeIpiisClient.with_address_db_path, NativeAddressBook.get,
      NativeAddressBook.set, NativeAddressBook.set_primary, Table.find_insert]

/-- Witness for C10 (amended) at concrete inputs. -/
theorem C10_constructor_witness :
    (RouterClient.get_primary decP
        { account_me := [0], table := [([1, 2], "127.0.0.1:8080"), ([0], "P")] } none =
      .ok (some [2])) ∧
    IpiisClient.new encP resolveEx bookEx none (some "localhost:8080") = .ok bookEx := by
  have h := C10_constructor encP decP resolveEx bookEx [2] (some "localhost:8080") rfl
  exact ⟨(h.1 { account_me := [0], table := [([1, 2], "127.0.0.1:8080"), ([0], "P")] }
      rfl).1, h.2.1⟩

/-!
## Envelopes and the builtin-op server handlers

A guarantee-signed envelope (`Data<GuaranteeSigned, T>` of the external
`ipis` crate) carries metadata naming the guarantee (signer) account
and the target account; the cryptographic parts — expiry relative to
now, payload digest and Ed25519 signature validity — are abstracted
into the two booleans `expired` and `intact` of the metadata, per the
spec's description of verification. -/

/-- The metadata of a guarantee-signed envelope: guarantee (signer)
account, target account, and the abstracted outcome of its
time/digest/signature checks. -/
structure SignMeta where
  guarantee : AccountRef
  target : AccountRef
  expired : Bool
  intact : Bool
deriving DecidableEq

/-- A guarantee-signed envelope around a payload, as the server
handlers see it after deserialization. -/
structure Guarantee (α : Type) where
  metadata : SignMeta
  data : α
deriving DecidableEq

/-- Modelled from the spec: `ensure_self_signed()` of the external
`ipis` crate (spec §4.3/§8: it holds iff
`envelope.guarantee == envelope.target`), called by the mutating
builtin-op handlers before they touch any state; failure is an
authorization error. -/
def SignMeta.ensure_self_signed (m : SignMeta) : Except String Unit :=
  if m.guarantee = m.target then .ok () else .error "this sign is not self-signed"

/-- Modelled from the spec: envelope verification (spec §4.3) of the
external `ipis` crate — when an expected self identity is given the
target must equal it, then the expiry must not have passed, then the
payload digest and the Ed25519 signature must check out (the last two
abstracted as `intact`). -/
def SignMeta.verify (m : SignMeta) (expected : Option AccountRef) : Except String Unit :=
  match expected with
  | some e =>
    if m.target ≠ e then .error "the target does not match"
    else if m.expired then .error "the envelope is expired"
    else if m.intact then .ok () else .error "the signature is invalid"
  | none =>
    if m.expired then .error "the envelope is expired"
    else if m.intact then .ok () else .error "the signature is invalid"

/-- `io::request::*::recv` (`src/common/src/lib.rs:454`): after the
request fields are read, the guarantee envelope is verified with
`Some(client.account_ref())` — the server's own account — before the
request is handed out. -/
def request_recv {α : Type} (self : AccountRef) (req : Guarantee α) :
    Except String (Guarantee α) :=
  match SignMeta.verify req.metadata (some self) with
  | .ok _ => .ok req
  | .error e => .error e

/-- `__try_handle` (`src/common/src/lib.rs:958`), one opcode branch:
receive (and thereby verify) the typed request, then invoke the
registered handler on it. -/
def try_handle {α β : Type} (self : AccountRef)
    (handler : Guarantee α → Except String β) (req : Guarantee α) : Except String β :=
  match request_recv self req with
  | .error e => .error e
  | .ok r => handler r

/-- Claim C3: the server verifies the received guarantee envelope
against its own account reference before the registered handler runs —
a request bound to a different target is rejected with the same error
whatever the handler is, and the handler is invoked (on the unchanged
request) exactly when the envelope verifies. -/
theorem C3_target_verified_before_handler {α β : Type} (self : AccountRef)
    (req : Guarantee α) (handler : Guarantee α → Except String β) :
    (req.metadata.target ≠ self →
      try_handle self handler req = .error "the target does not match") ∧
    (req.metadata.target = self → req.metadata.expired = false →
      req.metadata.intact = true → try_handle self handler req = handler req) := by
  constructor
  · intro h
    simp [try_handle, request_recv, SignMeta.verify, h]
  · intro ht hexp hint
    simp [try_handle, request_recv, SignMeta.verify, ht, hexp, hint]

/-- Witness for C3 at concrete inputs: a request targeted at `[5]`
received by the server `[0]` is rejected without the handler (here the
constant success handler) ever running; retargeted at `[0]` it reaches
the handler. -/
theorem C3_target_verified_before_handler_witness :
    try_handle ([0] : AccountRef) (fun _ : Guarantee Unit => .ok (42 : Nat))
      { metadata := { guarantee := [5], target := [5], expired := false, intact := true },
        data := () } = .error "the target does not match" ∧
    try_handle ([0] : AccountRef) (fun _ : Guarantee Unit => .ok (42 : Nat))
      { metadata := { guarantee := [5], target := [0], expired := false, intact := true },
        data := () } = .ok 42 :=
  ⟨(C3_target_verified_before_handler [0]
      { metadata := { guarantee := [5], target := [5], expired := false, intact := true },
        data := () } (fun _ => .ok 42)).1 (by decide),
   (C3_target_verified_before_handler [0]
      { metadata := { guarantee := [5], target := [0], expired := false, intact := true },
        data := () } (fun _ => .ok 42)).2 rfl rfl rfl⟩

/-!
The six builtin-op handlers of `impl_ipiis_server!`
(`src/api/common/src/server.rs`). Each is embedded as its effect on the
server's routing store plus its data output; the guarantor
countersignature attached to every reply is assembled by the external
`ipis` crate and carries no routing state, so it is left out of the
handler results. The client methods the handlers call
(`client.set_account_primary` etc., `src/api/quic/src/client.rs`)
write locally and then, only when this peer is its own root primary,
additionally send the same operation to itself over the network; that
send does not touch the local table, so the handlers' local effect is
the store operation embedded here. The delete store operations are the
spec-modelled `RouterClient.delete`/`delete_primary` above. -/

/-- `handle_get_account_primary` (`src/api/common/src/server.rs:50`):
no self-signed check — unpack the kind, run the client's
`get_account_primary`, look the account's address up, reply with both. -/
def handle_get_account_primary (enc : AccountRef → String)
    (dec : String → Option AccountRef) (resolve : String → List String)
    (remote : AccountRef → Hash → Except String PrimaryReply) (b : Book)
    (req : Guarantee (Option Hash)) :
    Except String (Book × AccountRef × Option String) :=
  match IpiisClient.get_account_primary enc dec resolve remote b req.data with
  | .error e => .error e
  | .ok (account, b₁) =>
    match RouterClient.get b₁ req.data account with
    | .error e => .error e
    | .ok address => .ok (b₁, account, address)

/-- `handle_set_account_primary` (`src/api/common/src/server.rs:84`):
`ensure_self_signed` first, then the primary write. -/
def handle_set_account_primary (enc : AccountRef → String) (b : Book)
    (req : Guarantee (Option Hash × AccountRef)) : Except String Book :=
  match SignMeta.ensure_self_signed req.metadata with
  | .error e => .error e
  | .ok _ => .ok (RouterClient.set_primary enc b req.data.1 req.data.2)

/-- `handle_delete_account_primary` (`src/api/common/src/server.rs:111`):
`ensure_self_signed` first, then the primary erase. -/
def handle_delete_account_primary (b : Book) (req : Guarantee (Option Hash)) :
    Except String Book :=
  match SignMeta.ensure_self_signed req.metadata with
  | .error e => .error e
  | .ok _ => .ok (RouterClient.delete_primary b req.data)

/-- `handle_get_address` (`src/api/common/src/server.rs:137`): no
self-signed check — run the client's `get_address` on the unpacked
kind and account. -/
def handle_get_address (dec : String → Option AccountRef)
    (resolve : String → List String)
    (remoteAddr : AccountRef → Option Hash × AccountRef → Except String String)
    (b : Book) (req : Guarantee (Option Hash × AccountRef)) :
    Except String (Book × String) :=
  match IpiisClient.get_address dec resolve remoteAddr b req.data.1 req.data.2 with
  | .error e => .error e
  | .ok (address, b₁) => .ok (b₁, address)

/-- `handle_set_address` (`src/api/common/src/server.rs:167`):
`ensure_self_signed` first, then the validated address write. -/
def handle_set_address (resolve : String → List String) (b : Book)
    (req : Guarantee (Option Hash × AccountRef × String)) : Except String Book :=
  match SignMeta.ensure_self_signed req.metadata with
  | .error e => .error e
  | .ok _ => RouterClient.set resolve b req.data.1 req.data.2.1 req.data.2.2

/-- `handle_delete_address` (`src/api/common/src/server.rs:200`):
`ensure_self_signed` first, then the address erase. -/
def handle_delete_address (b : Book) (req : Guarantee (Option Hash × AccountRef)) :
    Except String Book :=
  match SignMeta.ensure_self_signed req.metadata with
  | .error e => .error e
  | .ok _ => .ok (RouterClient.delete b req.data.1 req.data.2)

/-- Claim C2: the four mutating/deleting builtin handlers fail with the
authorization error — before any state change, since the guard
precedes the store write — unless the guarantee envelope is
self-signed, and succeed (up to their own store validation) when it
is; the two get handlers impose no such requirement: their result does
not depend on the envelope's guarantee or target accounts at all. -/
theorem C2_self_signed_guard (enc : AccountRef → String)
    (dec : String → Option AccountRef) (resolve : String → List String)
    (remote : AccountRef → Hash → Except String PrimaryReply)
    (remoteAddr : AccountRef → Option Hash × AccountRef → Except String String)
    (b : Book) :
    (∀ req : Guarantee (Option Hash × AccountRef),
      req.metadata.guarantee ≠ req.metadata.target →
      handle_set_account_primary enc b req = .error "this sign is not self-signed") ∧
    (∀ req : Guarantee (Option Hash),
      req.metadata.guarantee ≠ req.metadata.target →
      handle_delete_account_primary b req = .error "this sign is not self-signed") ∧
    (∀ req : Guarantee (Option Hash × AccountRef × String),
      req.metadata.guarantee ≠ req.metadata.target →
      handle_set_address resolve b req = .error "this sign is not self-signed") ∧
    (∀ req : Guarantee (Option Hash × AccountRef),
      req.metadata.guarantee ≠ req.metadata.target →
      handle_delete_address b req = .error "this sign is not self-signed") ∧
    (∀ req : Guarantee (Option Hash × AccountRef),
      req.metadata.guarantee = req.metadata.target →
      handle_set_account_primary enc b req =
        .ok (RouterClient.set_primary enc b req.data.1 req.data.2)) ∧
    (∀ req : Guarantee (Option Hash),
      req.metadata.guarantee = req.metadata.target →
      handle_delete_account_primary b req =
        .ok (RouterClient.delete_primary b req.data)) ∧
    (∀ req : Guarantee (Option Hash × AccountRef × String),
      req.metadata.guarantee = req.metadata.target →
      handle_set_address resolve b req =
        RouterClient.set resolve b req.data.1 req.data.2.1 req.data.2.2) ∧
    (∀ req : Guarantee (Option Hash × AccountRef),
      req.metadata.guarantee = req.metadata.target →
      handle_delete_address b req =
        .ok (RouterClient.delete b req.data.1 req.data.2)) ∧
    (∀ (m m' : SignMeta) (d : Option Hash),
      handle_get_account_primary enc dec resolve remote b { metadata := m, data := d } =
      handle_get_account_primary enc dec resolve remote b { metadata := m', data := d }) ∧
    (∀ (m m' : SignMeta) (d : Option Hash × AccountRef),
      handle_get_address dec resolve remoteAddr b { metadata := m, data := d } =
      handle_get_address dec resolve remoteAddr b { metadata := m', data := d }) := by
  refine ⟨fun req h => ?_, fun req h => ?_, fun req h => ?_, fun req h => ?_,
    fun req h => ?_, fun req h => ?_, fun req h => ?_, fun req h => ?_,
    fun m m' d => rfl, fun m m' d => rfl⟩ <;>
    simp [handle_set_account_primary, handle_delete_account_primary,
      handle_set_address, handle_delete_address, SignMeta.ensure_self_signed, h]

/-- Witness for C2 at concrete inputs: a `SetAccountPrimary` from `[7]`
to the server `[0]` is refused; self-signed from `[0]` it writes. -/
theorem C2_self_signed_guard_witness :
    handle_set_account_primary encP bookEx
      { metadata := { guarantee := [7], target := [0], expired := false, intact := true },
        data := (none, [2]) } = .error "this sign is not self-signed" ∧
    handle_set_account_primary encP bookEx
      { metadata := { guarantee := [0], target := [0], expired := false, intact := true },
        data := (none, [2]) } =
      .ok (RouterClient.set_primary encP bookEx none [2]) :=
  ⟨(C2_self_signed_guard encP decP resolveEx remoteEx
      (fun _ _ => .error "unused") bookEx).1
      { metadata := { guarantee := [7], target := [0], expired := false, intact := true },
        data := (none, [2]) } (by decide),
   (C2_self_signed_guard encP decP resolveEx remoteEx
      (fun _ _ => .error "unused") bookEx).2.2.2.2.1
      { metadata := { guarantee := [0], target := [0], expired := false, intact := true },
        data := (none, [2]) } rfl⟩

/-!
## The result flag and the reply framing

`ServerResult` (`src/common/src/lib.rs:167`) is a `bitflags` byte with
bits `ACK`, `OK`, `ERR`; the composed `ACK_OK`/`ACK_ERR` add no new
bits, so `from_bits` accepts exactly the bytes inside the `0xE0` mask.
The fields of a reply stream are embedded at the granularity the
claims need: a field is either a plain (unsigned) payload or a
guarantor-signed envelope around a payload. -/

namespace ServerResult

/-- `ServerResult::ACK = 0b10000000`. -/
def ACK : Byte := 0x80

/-- `ServerResult::OK = 0b01000000`. -/
def OK : Byte := 0x40

/-- `ServerResult::ERR = 0b00100000`. -/
def ERR : Byte := 0x20

/-- `ServerResult::ACK_OK = ACK | OK`. -/
def ACK_OK : Byte := ACK ||| OK

/-- `ServerResult::ACK_ERR = ACK | ERR`. -/
def ACK_ERR : Byte := ACK ||| ERR

/-- `bitflags`' generated `from_bits`: accept a byte exactly when it
sets no bit outside the declared flags (mask `ACK ||| OK ||| ERR`). -/
def from_bits (b : Byte) : Option Byte :=
  if b &&& (ACK ||| OK ||| ERR) = b then some b else none

end ServerResult

/-- One field of a reply stream: either a plain (unsigned) payload —
what `DynStream::Owned(e.to_string())` sends — or a guarantor-signed
envelope around a payload — what a response's `__sign :
DynStream<Data<GuarantorSigned, _>>` sends. -/
inductive Field where
  | plain : String → Field
  | signed : SignMeta → String → Field
deriving DecidableEq

/-- Whether a reply field carries a guarantor signature. -/
def Field.isSigned : Field → Bool
  | .plain _ => false
  | .signed _ _ => true

/-- The payload text a field carries. -/
def Field.content : Field → String
  | .plain s => s
  | .signed _ s => s

/-- A typed response as `io::response::*::send` serializes it: its
guarantor-signed envelope and its data fields. -/
structure Response where
  sign : SignMeta
  signPayload : String
  fields : List Field
deriving DecidableEq

/-- `io::response::*::send` (`src/common/src/lib.rs:596`): write the
`ACK_OK` flag byte, then the guarantor-signed envelope, then each data
field in declaration order. -/
def response_send (r : Response) : Byte × List Field :=
  (ServerResult.ACK_OK, Field.signed r.sign r.signPayload :: r.fields)

/-- `__handle` (`src/common/src/lib.rs:926`): a successful
`__try_handle` has already written the response via its `send`; on
error the server writes the `ACK_ERR` flag byte followed by the single
field `DynStream::Owned(e.to_string())` — the bare error string,
unsigned. -/
def server_handle (result : Except String Response) : Byte × List Field :=
  match result with
  | .ok r => response_send r
  | .error e => (ServerResult.ACK_ERR, [Field.plain e])

/-- The client's reaction to the flag byte of a reply
(`src/common/src/lib.rs:419`): `ACK_OK` hands the stream to the typed
reader; `ACK_ERR` reads the error payload; any other byte accepted by
`from_bits` that still has the `ACK` bit is `unknown ACK flag`; any
remaining byte is `cannot parse the result of response`. -/
inductive FlagStep where
  | okStream
  | errPayload
  | fail : String → FlagStep
deriving DecidableEq

/-- The `match recv.read_u8().await.map(ServerResult::from_bits)` arms
of `io::request::*::send`, in source order. -/
def client_parse_flag (b : Byte) : FlagStep :=
  match ServerResult.from_bits b with
  | some f =>
    if f = ServerResult.ACK_OK then .okStream
    else if f = ServerResult.ACK_ERR then .errPayload
    else if f &&& ServerResult.ACK = ServerResult.ACK then .fail "unknown ACK flag"
    else .fail "cannot parse the result of response"
  | none => .fail "cannot parse the result of response"

/-- The client's full handling of a reply `(flag, fields)`: on
`ACK_OK` the typed field stream is handed on; on `ACK_ERR` the single
error payload is read and surfaced as `internal error: {payload}`
(`bail!("internal error: {res}")`); a malformed flag is the
corresponding error. -/
def client_parse_reply (flag : Byte) (fields : List Field) :
    Except String (List Field) :=
  match client_parse_flag flag with
  | .okStream => .ok fields
  | .errPayload =>
    match fields with
    | f :: _ => .error ("internal error: " ++ Field.content f)
    | [] => .error "network error: unexpected end of stream"
  | .fail e => .error e

/-- Counterexample to claim C5 as stated: the single field following
`ACK_ERR` is the bare error string — `DynStream::Owned(e.to_string())`
— not a guarantor-signed envelope (the client side even carries a
`TODO: verify data` for it). -/
theorem C5_counterexample :
    server_handle (.error "boom") = (0xA0, [Field.plain "boom"]) ∧
    (server_handle (.error "boom")).2.map Field.isSigned = [false] := by
  refine ⟨rfl, rfl⟩

/-- Claim C5 (amended): every server reply stream begins with exactly
one ResultFlag byte, `ACK|OK = 0xC0` or `ACK|ERR = 0xA0`; on `ACK|OK`
the guarantor-signed envelope and the typed response fields follow, on
`ACK|ERR` exactly one field follows and it is the plain (unsigned)
error string; a client receiving any flag byte other than these two
returns an error. -/
theorem C5_result_flag (result : Except String Response) :
    ((server_handle result).1 = ServerResult.ACK_OK ∨
      (server_handle result).1 = ServerResult.ACK_ERR) ∧
    (∀ r, result = .ok r →
      server_handle result =
        (ServerResult.ACK_OK, Field.signed r.sign r.signPayload :: r.fields)) ∧
    (∀ e, result = .error e →
      server_handle result = (ServerResult.ACK_ERR, [Field.plain e])) ∧
    (∀ b : Byte, b ≠ ServerResult.ACK_OK → b ≠ ServerResult.ACK_ERR →
      ∀ fields, ∃ msg, client_parse_reply b fields = .error msg) := by
  refine ⟨?_, fun r hr => ?_, fun e he => ?_, fun b hok herr fields => ?_⟩
  · cases result with
    | ok r => exact .inl rfl
    | error e => exact .inr rfl
  · cases hr
    rfl
  · cases he
    rfl
  · have h1 : client_parse_flag b = .fail "unknown ACK flag" ∨
        client_parse_flag b = .fail "cannot parse the result of response" := by
      unfold client_parse_flag ServerResult.from_bits
      by_cases hmask : b &&& (ServerResult.ACK ||| ServerResult.OK ||| ServerResult.ERR) = b
      · rw [if_pos hmask]
        simp only [if_neg hok, if_neg herr]
        by_cases hack : b &&& ServerResult.ACK = ServerResult.ACK
        · rw [if_pos hack]
          exact .inl rfl
        · rw [if_neg hack]
          exact .inr rfl
      · rw [if_neg hmask]
        exact .inr rfl
    rcases h1 with h1 | h1
    · exact ⟨"unknown ACK flag", by simp [client_parse_reply, h1]⟩
    · exact ⟨"cannot parse the result of response", by simp [client_parse_reply, h1]⟩

/-- A concrete self-signed metadata for witnesses. -/
def signEx : SignMeta :=
  { guarantee := [0], target := [0], expired := false, intact := true }

/-- A concrete empty-bodied response for witnesses. -/
def respEx : Response := { sign := signEx, signPayload := "", fields := [] }

/-- Witness for C5 (amended) at concrete inputs: the flag byte `0x40`
(OK without ACK) and the byte `0xFF` both make the client fail, and a
successful reply opens with `ACK_OK` and the signed envelope. -/
theorem C5_result_flag_witness :
    (∃ msg, client_parse_reply 0x40 [] = .error msg) ∧
    (∃ msg, client_parse_reply 0xFF [] = .error msg) ∧
    server_handle (.ok respEx) =
      (ServerResult.ACK_OK, [Field.signed signEx ""]) :=
  ⟨(C5_result_flag (.error "x")).2.2.2 0x40 (by decide) (by decide) [],
   (C5_result_flag (.error "x")).2.2.2 0xFF (by decide) (by decide) [],
   (C5_result_flag (.ok respEx)).2.1 respEx rfl⟩

/-- Counterexample to claim C6 as stated: a handler failure `boom`
reaches the caller as the message `internal error: boom`, not as
exactly `boom`. -/
theorem C6_counterexample :
    client_parse_reply (server_handle (.error "boom")).1
        (server_handle (.error "boom")).2 =
      .error "internal error: boom" ∧
    "internal error: boom" ≠ "boom" := by
  refine ⟨rfl, by decide⟩

/-- Claim C6 (amended): when the server's handler fails with message
`m`, the error the client returns has textual form
`internal error: ` followed by `m` — the prefix comes from the
client's `bail!("internal error: {res}")`; the server-provided string
is carried verbatim after it. -/
theorem C6_error_text (e : String) :
    client_parse_reply (server_handle (.error e)).1 (server_handle (.error e)).2 =
      .error ("internal error: " ++ e) := by
  have hflag : client_parse_flag ServerResult.ACK_ERR = .errPayload := by decide
  simp [server_handle, client_parse_reply, hflag, Field.content]

end Ipiis
